import Mathlib

/-!
Shallow embedding in Lean 4 of `picaso/atmsetup.py` (class `ATMSETUP`), the
profile-ingestion and physical-derivation pipeline of the picaso
radiative-transfer front end, together with proofs about the embedded code.

Modelling conventions:
* Python `float` profile data is modelled as real numbers (`ℝ`); molecular
  masses are modelled as rationals (`ℚ`) so that concrete evaluations are
  decidable.  The properties under study are exact algebraic relations, not
  rounding behaviour.
* The external element table (`from .elements import ELEMENTS as ele`) is a
  parameter `ele : String → Option ℚ`; `none` models the `KeyError` raised on
  an unknown element symbol.
* `numpy.sqrt` is passed to the loaders as a parameter `sqrtF : ℝ → ℝ`;
  theorem statements instantiate it with `Real.sqrt`.
* Python exceptions are modelled with `Except String` or `Option`; the message
  strings identify the failure site but do not reproduce CPython text
  verbatim.
* Strings are assumed ASCII, where Python `str.isupper` / `str.islower` /
  single-character `float` parsing agree with `Char.isUpper` / `Char.isLower`
  / `Char.isDigit`.
* Reading of files / DataFrames (pandas, h5py) is external IO; the loaders
  here receive the resulting in-memory tables directly.
-/

/-! ### Molecular weight resolver: `ATMSETUP.get_weights` (lines 308-346) -/

/-- An entry of the Python list `molecule_list` built inside `get_weights`:
either an element-symbol string or a single parsed digit (a Python float). -/
inductive Tok where
  | s (v : String)
  | f (v : ℚ)
deriving DecidableEq

/-- One iteration of the character loop of `get_weights` (lines 329-334),
processing character `c` found at string index `j`, given the current
`molecule_list`.  `try: molecule_list += [float(i[j])]` succeeds exactly on a
digit; otherwise an uppercase letter appends a fresh symbol, and a lowercase
letter executes `molecule_list[j-1] = molecule_list[j-1] + i[j]`, which
raises IndexError when `j = 0` (negative index into the empty list) or when
`j - 1` is not a valid index, and TypeError when entry `j-1` is a float.
Uncaught exceptions are modelled as `none`.  Characters that are neither
digits nor letters are dropped. -/
def tokStep (mlist : List Tok) (j : ℕ) (c : Char) : Option (List Tok) :=
  if c.isDigit then some (mlist ++ [Tok.f ((c.toNat - 48 : ℕ) : ℚ)])
  else if c.isUpper then some (mlist ++ [Tok.s (String.singleton c)])
  else if c.isLower then
    if j = 0 then none
    else
      match mlist.get? (j - 1) with
      | some (Tok.s v) => some (mlist.set (j - 1) (Tok.s (v.push c)))
      | some (Tok.f _) => none
      | none => none
  else some mlist

/-- The character loop of `get_weights` (lines 328-334), scanning the formula
left to right while tracking the string index `j`. -/
def buildTokensGo (j : ℕ) (acc : List Tok) : List Char → Option (List Tok)
  | [] => some acc
  | c :: rest =>
    match tokStep acc j c with
    | some acc2 => buildTokensGo (j + 1) acc2 rest
    | none => none

/-- The list `molecule_list` as built by `get_weights` for one formula string. -/
def buildTokens (chars : List Char) : Option (List Tok) :=
  buildTokensGo 0 [] chars

/-- The mass-summing loop of `get_weights` (lines 335-344): walks
`molecule_list` with an accumulator `totmass`; for each string entry it looks
the element up in the table (`KeyError`, i.e. `none`, on failure) and
multiplies by `float(molecule_list[j+1])` when that parse succeeds -- which
happens exactly when the next entry is a float, since string entries are at
most one uppercase plus one lowercase letter and never parse as floats --
defaulting to `1` otherwise (including past the end of the list). -/
def massLoopGo (ele : String → Option ℚ) (acc : ℚ) : List Tok → Option ℚ
  | [] => some acc
  | Tok.f _ :: rest => massLoopGo ele acc rest
  | Tok.s v :: rest =>
    match ele v with
    | none => none
    | some m =>
      let num : ℚ :=
        match rest with
        | Tok.f x :: _ => x
        | _ => 1
      massLoopGo ele (acc + m * num) rest

/-- The resolver `get_weights` specialised to a single formula string: the mass computed
for key `i` of the returned dict.  `none` models any exception escaping
`get_weights`. -/
def get_weights_one (ele : String → Option ℚ) (i : String) : Option ℚ :=
  (buildTokens i.toList).bind (massLoopGo ele 0)

/-- Embedding of `ATMSETUP.get_weights` on a list of formulas: the returned dict, as an
association list in input order. -/
def get_weights (ele : String → Option ℚ) (molecule : List String) :
    Option (List (String × ℚ)) :=
  molecule.mapM (fun i => (get_weights_one ele i).map (fun w => (i, w)))

/-- A small concrete element table used for closed evaluations (atomic masses
rounded to integers; none of the properties under study depend on the exact
masses). -/
def eleStd : String → Option ℚ := fun s =>
  if s = "H" then some 1
  else if s = "He" then some 4
  else if s = "C" then some 12
  else if s = "N" then some 14
  else if s = "O" then some 16
  else none

/-! ### Shared derivation operators (level → layer rules) -/

/-- The expression `0.5*(x[1:] + x[:-1])` on a 1-D array: the arithmetic-mean layer rule as
written in `get_profile` (lines 208, 223, 230, 244) and `get_profile_3d`
(lines 143, 146, 153). -/
def meanAdj (l : List ℝ) : List ℝ :=
  List.zipWith (fun a b => 0.5 * (a + b)) l.tail l

/-- The expression `np.sqrt(x[1:] * x[:-1])` on a 1-D array: the geometric-mean layer rule
for pressure (lines 149, 245), with the square-root function `sqrtF` passed
in (`numpy.sqrt`). -/
def geomAdj (sqrtF : ℝ → ℝ) (l : List ℝ) : List ℝ :=
  List.zipWith (fun a b => sqrtF (a * b)) l.tail l

/-- The expression `0.5*(m[1:,:] + m[:-1,:])` on a 2-D array stored as a list of rows
(line 230). -/
def meanAdjRows (m : List (List ℝ)) : List (List ℝ) :=
  List.zipWith (fun r2 r1 => List.zipWith (fun a b => 0.5 * (a + b)) r2 r1) m.tail m

/-- The expression `0.5*(w[:-1] + w[1:])` (line 365 in `get_mmw`): same arithmetic mean,
written with the operands in the source's order. -/
def meanAdjDrop (l : List ℝ) : List ℝ :=
  List.zipWith (fun a b => 0.5 * (a + b)) l.dropLast l.tail

/-- The constant `self.c.pconv = 1e6`: bar → dyn/cm² conversion factor (line 49). -/
def pconv : ℝ := 1000000

/-! ### 1-D profile loader: `ATMSETUP.get_profile` (lines 156-257) -/

/-- A column-oriented table (a pandas DataFrame): association list from
column name to column values, in column order. -/
abbrev Table := List (String × List ℝ)

/-- Column lookup `read[k]`, `none` modelling a `KeyError`. -/
def tlookup (read : Table) (k : String) : Option (List ℝ) :=
  (read.find? (fun p => p.1 == k)).map Prod.snd

/-- The mutable pieces of state accumulated by the molecule-classification
loops of `get_profile` (lines 190-226). -/
structure ScanAcc where
  weights : List (String × ℚ)
  molecules : List String
  level_electrons : Option (List ℝ)
  layer_electrons : Option (List ℝ)
  warnings : List String

/-- The implicit column scan of `get_profile` (lines 212-225): cycle through
every column name; skip `pressure`/`temperature`; a column whose weight
resolves is a molecule; on resolution failure `e-` fills the electron
arrays and anything else is skipped with a recorded warning. -/
def scanColumnsGo (ele : String → Option ℚ) (read : Table) (acc : ScanAcc) :
    List String → ScanAcc
  | [] => acc
  | i :: rest =>
    if i = "pressure" ∨ i = "temperature" then scanColumnsGo ele read acc rest
    else
      match get_weights_one ele i with
      | some w =>
        scanColumnsGo ele read
          { acc with weights := acc.weights ++ [(i, w)],
                     molecules := acc.molecules ++ [i] } rest
      | none =>
        if i = "e-" then
          let ecol := (tlookup read "e-").getD []
          scanColumnsGo ele read
            { acc with level_electrons := some ecol,
                       layer_electrons := some (meanAdj ecol) } rest
        else
          scanColumnsGo ele read
            { acc with warnings := acc.warnings ++
                ["Ignoring " ++ i ++ " in input file, not recognized molecule"] } rest

/-- The explicit `whichones` loop of `get_profile` (lines 193-211): each
listed name must resolve to a weight, except `e-` which fills the electron
arrays (`KeyError` if the table has no `e-` column); any other failure is a
fatal user error. -/
def whichonesGo (ele : String → Option ℚ) (read : Table) (acc : ScanAcc) :
    List String → Except String ScanAcc
  | [] => Except.ok acc
  | i :: rest =>
    match get_weights_one ele i with
    | some w => whichonesGo ele read { acc with weights := acc.weights ++ [(i, w)] } rest
    | none =>
      if i = "e-" then
        match tlookup read "e-" with
        | some ecol =>
          whichonesGo ele read
            { acc with level_electrons := some ecol,
                       layer_electrons := some (meanAdj ecol) } rest
        | none => Except.error "KeyError: e-"
      else
        Except.error ("Molecule " ++ i ++ " in whichones is not recognized, check list and resubmit")

/-- An `Except`-valued `mapM` written by structural recursion so proofs can
unfold it. -/
def listMapME {α β : Type} (f : α → Except String β) : List α → Except String (List β)
  | [] => Except.ok []
  | a :: l =>
    match f a with
    | Except.error e => Except.error e
    | Except.ok b => (listMapME f l).map (fun bs => b :: bs)

/-- The message raised at line 249: the call `calc_TP(...)` refers to a name
that does not exist anywhere in the module (the method is `calc_PT`), so
CPython raises `NameError` there. -/
def nameError_calc_TP : String := "NameError: name calc_TP is not defined"

/-- The output state written by `get_profile`. `c_nlevel`/`c_nlayer` are the
Python integers stored in the constants bundle (lines 255-257). -/
structure ProfileOut where
  dimension : String
  molecules : List String
  weights : List (String × ℚ)
  level_mixingratios : List (List ℝ)
  layer_mixingratios : List (List ℝ)
  level_electrons : Option (List ℝ)
  layer_electrons : Option (List ℝ)
  level_temperature : List ℝ
  layer_temperature : List ℝ
  level_pressure : List ℝ
  layer_pressure : List ℝ
  warnings : List String
  c_nlevel : ℤ
  c_nlayer : ℤ
deriving Inhabited

/-- Number of rows of the table (a pandas DataFrame has one common row count;
we take the first column's length). -/
def trows (read : Table) : ℕ :=
  match read with
  | [] => 0
  | (_, c) :: _ => c.length

/-- Shallow embedding of `ATMSETUP.get_profile` (lines 156-257).  The
file/DataFrame ingestion (lines 172-184) is external IO: the resulting table
is the argument `read`.  `whichones` is `some list` when the config value is
a Python list, else `none`.  The PT parameters are `some x` when numeric
(`isinstance(...,(float,int))`), else `none`.  Line 229
(`read[list(weights.keys())].as_matrix()`) raises `KeyError` when a resolved
name is not a column of `read`; the row count of the resulting matrix is the
table's row count even when no molecule was recognized. -/
def get_profile (ele : String → Option ℚ) (sqrtF : ℝ → ℝ) (read : Table)
    (whichones : Option (List String))
    (T logg1 logKir logPc : Option ℝ) : Except String ProfileOut := do
  let acc0 : ScanAcc := ⟨[], [], none, none, []⟩
  let scanRes ←
    match whichones with
    | some ws => do
      let acc ← whichonesGo ele read acc0 ws
      pure { acc with molecules := ws }
    | none => pure (scanColumnsGo ele read acc0 (read.map Prod.fst))
  let cols ← listMapME (fun k =>
      match tlookup read k with
      | some col => Except.ok col
      | none => Except.error ("KeyError: " ++ k)) (scanRes.weights.map Prod.fst)
  let level_mix := (List.range (trows read)).map
      (fun ri => cols.map (fun col => col.getD ri 0))
  let keys := read.map Prod.fst
  if "temperature" ∈ keys ∧ "pressure" ∈ keys then
    let ltemp := (tlookup read "temperature").getD []
    let lpress := ((tlookup read "pressure").getD []).map (fun x => x * pconv)
    pure { dimension := "1d",
           molecules := scanRes.molecules,
           weights := scanRes.weights,
           level_mixingratios := level_mix,
           layer_mixingratios := meanAdjRows level_mix,
           level_electrons := scanRes.level_electrons,
           layer_electrons := scanRes.layer_electrons,
           level_temperature := ltemp,
           layer_temperature := meanAdj ltemp,
           level_pressure := lpress,
           layer_pressure := geomAdj sqrtF lpress,
           warnings := scanRes.warnings,
           c_nlevel := (level_mix.length : ℤ),
           c_nlayer := (level_mix.length : ℤ) - 1 }
  else if T.isSome ∧ logg1.isSome ∧ logKir.isSome ∧ logPc.isSome then
    Except.error nameError_calc_TP
  else
    Except.error "There is not adequte information to compute PT profile"

/-- Embedding of `ATMSETUP.calc_PT` (lines 259-273): unconditionally raises before its
`return` statement. -/
def calc_PT (_T _logKir _logg1 _logPc : ℝ) : Except String Table :=
  Except.error "TODO: Temperature parameterization option not included yet"

/-! ### Mean molecular weight: `ATMSETUP.get_mmw` (lines 350-366) -/

/-- One row of `mixingratios @ weights.values[0]`: dot product of a level's
mixing-ratio row against the molar-mass vector (weights dict values in key
order). -/
def dotWeights (row : List ℝ) (w : List (String × ℚ)) : ℝ :=
  (List.zipWith (fun a p => a * ((p.2 : ℚ) : ℝ)) row w).sum

/-- The array `self.level['mmw']` in the 1-D branch of `get_mmw` (line 355). -/
def get_mmw_level (mix : List (List ℝ)) (w : List (String × ℚ)) : List ℝ :=
  mix.map (fun row => dotWeights row w)

/-- The assignment `self.layer['mmw'] = 0.5*(weighted_matrix[:-1]+weighted_matrix[1:])`
(line 365). -/
def get_mmw_layer (lvlmmw : List ℝ) : List ℝ :=
  meanAdjDrop lvlmmw

/-! ### Continuum species selector: `ATMSETUP.get_needed_continuum`
(lines 275-306) -/

/-- Output of `get_needed_continuum`: the continuum pair list, the filtered
molecule registry, and the warnings list after the call. -/
structure ContinuumOut where
  continuum_molecules : List (String × String)
  molecules : List String
  warnings : List String
deriving DecidableEq

/-- The literal list on line 306 from which continuum-handled species are
removed. -/
def continuum_removed : List String := ["H", "H2-", "H2", "H-", "He", "N2", "H+"]

/-- Shallow embedding of `ATMSETUP.get_needed_continuum` (lines 275-306).
`electrons` models `"electrons" in self.level.keys()`.  Note that line 304
tests membership of the constant string `'H+'` in the constant list
`['H','H2-','H2','H-','He','N2']` (not in `self.molecules`), which is
translated verbatim. -/
def get_needed_continuum (molecules : List String) (electrons : Bool)
    (warnings : List String) : ContinuumOut :=
  let cm : List (String × String) :=
    (if "H2" ∈ molecules then [("H2", "H2")] else []) ++
    (if "H2" ∈ molecules ∧ "He" ∈ molecules then [("H2", "He")] else []) ++
    (if "H2" ∈ molecules ∧ "N2" ∈ molecules then [("H2", "N2")] else []) ++
    (if "H2" ∈ molecules ∧ "H" ∈ molecules then [("H2", "H")] else []) ++
    (if "H2" ∈ molecules ∧ "CH4" ∈ molecules then [("H2", "CH4")] else []) ++
    (if "H-" ∈ molecules then [("H-", "bf")] else []) ++
    (if "H" ∈ molecules ∧ electrons = true then [("H-", "ff")] else []) ++
    (if "H2" ∈ molecules ∧ electrons = true then [("H2", "H2-")] else [])
  let warns :=
    if "H+" ∈ (["H", "H2-", "H2", "H-", "He", "N2"] : List String)
    then warnings ++ ["No H+ continuum opacity included"] else warnings
  { continuum_molecules := cm,
    molecules := molecules.filter (fun x => decide (x ∉ continuum_removed)),
    warnings := warns }

/-! ### 3-D profile loader: `ATMSETUP.get_profile_3d` (lines 64-153) -/

/-- The `NameError` raised at line 121 (`iheader.pop(ielec)`) when the header
has no `e-` column: `ielec` is only assigned inside `if 'e-' in header`
(line 108), so the name is undefined in the `else` case. -/
def nameError_ielec : String := "NameError: name ielec is not defined"

/-- Python `list.pop(i)`: removal by index, `IndexError` when out of range. -/
def popE (l : List ℕ) (i : ℕ) : Except String (List ℕ) :=
  if i < l.length then Except.ok (l.eraseIdx i) else
    Except.error "IndexError: pop index out of range"

/-- The idiom `np.where(x == np.array(header))[0][0]`: index of the first occurrence,
`IndexError` when absent (lines 108, 119-120). -/
def findIdxE (x : String) (header : List String) : Except String ℕ :=
  match header.findIdx? (fun s => s == x) with
  | some i => Except.ok i
  | none => Except.error ("IndexError: " ++ x ++ " not found in header")

/-- Entry `dataset[g][t][i][col]` of the nested hdf5 dataset (gangle key,
tangle key, row = level, column), with 0 for out-of-range access; theorems
about the loader carry the shape hypotheses under which no out-of-range
access happens in the Python code. -/
def cell3 (dataset : List (List (List (List ℝ)))) (g t i col : ℕ) : ℝ :=
  (((dataset.getD g []).getD t []).getD i []).getD col 0

/-- A `[n, ng, nt]` tensor given by an index function, stored as nested
lists. -/
def grid3 (n ng nt : ℕ) (f : ℕ → ℕ → ℕ → ℝ) : List (List (List ℝ)) :=
  (List.range n).map (fun i =>
    (List.range ng).map (fun g =>
      (List.range nt).map (fun t => f i g t)))

/-- A `[n, nmol, ng, nt]` tensor given by an index function. -/
def grid4 (n nmol ng nt : ℕ) (f : ℕ → ℕ → ℕ → ℕ → ℝ) :
    List (List (List (List ℝ))) :=
  (List.range n).map (fun i =>
    (List.range nmol).map (fun j =>
      (List.range ng).map (fun g =>
        (List.range nt).map (fun t => f i j g t))))

/-- Entry `x[i][g][t]` of a 3-D tensor. -/
def getD3 (x : List (List (List ℝ))) (i g t : ℕ) : ℝ :=
  ((x.getD i []).getD g []).getD t 0

/-- Entry `x[i][j][g][t]` of a 4-D tensor. -/
def getD4 (x : List (List (List (List ℝ)))) (i j g t : ℕ) : ℝ :=
  (((x.getD i []).getD j []).getD g []).getD t 0

/-- The output state written by `get_profile_3d`. -/
structure Profile3Out where
  dimension : String
  molecules : List String
  weights : List (String × ℚ)
  iheader : List ℕ
  level_temperature : List (List (List ℝ))
  layer_temperature : List (List (List ℝ))
  level_pressure : List (List (List ℝ))
  layer_pressure : List (List (List ℝ))
  level_electrons : List (List (List ℝ))
  layer_electrons : List (List (List ℝ))
  level_mixingratios : List (List (List (List ℝ)))
  layer_mixingratios : List (List (List (List ℝ)))
  c_nlevel : ℤ
  c_nlayer : ℤ
deriving Inhabited

/-- The value `nlevel` as read at line 92: the row count of the first facet. -/
def nlevel3 (dataset : List (List (List (List ℝ)))) : ℕ :=
  ((dataset.getD 0 []).getD 0 []).length

/-- Shallow embedding of `ATMSETUP.get_profile_3d` (lines 64-153).  The hdf5
ingestion is external IO: `header` is the comma-split header attribute and
`dataset` the nested facet tables (gangle-keyed, then tangle-keyed).  The
first-pass block (lines 117-138) runs on the first loop iteration; it is
modelled unconditionally, so theorems carry the hypotheses `0 < ng` and
`0 < nt` under which this matches CPython.  Having got past the `ielec`
binding, `electron` is necessarily `True`, so the electron tensors are
always filled.  Registry weights failing to resolve propagate as uncaught
exceptions (line 135 has no try/except). -/
def get_profile_3d (ele : String → Option ℚ) (sqrtF : ℝ → ℝ)
    (header : List String) (dataset : List (List (List (List ℝ))))
    (ng nt : ℕ) : Except String Profile3Out := do
  let nlevel := nlevel3 dataset
  let ielecOpt := header.findIdx? (fun s => s == "e-")
  let itemp ← findIdxE "temperature" header
  let ipress ← findIdxE "pressure" header
  let ielec ← match ielecOpt with
    | some i => Except.ok i
    | none => Except.error nameError_ielec
  let ih0 := List.range header.length
  let ih1 ← popE ih0 ielec
  let ih2 ← popE ih1 itemp
  let ih3 ← popE ih2 ipress
  let weights ← listMapME (fun i =>
      match get_weights_one ele (header.getD i "") with
      | some w => Except.ok (header.getD i "", w)
      | none => Except.error ("unrecognized molecule: " ++ header.getD i "")) ih3
  let molecules := ih3.map (fun i => header.getD i "")
  let ltemp := grid3 nlevel ng nt (fun i g t => cell3 dataset g t i itemp)
  let laytemp := grid3 (nlevel - 1) ng nt
      (fun i g t => 0.5 * (getD3 ltemp (i + 1) g t + getD3 ltemp i g t))
  let lpress := grid3 nlevel ng nt (fun i g t => cell3 dataset g t i ipress * pconv)
  let laypress := grid3 (nlevel - 1) ng nt
      (fun i g t => sqrtF (getD3 lpress (i + 1) g t * getD3 lpress i g t))
  let lelec := grid3 nlevel ng nt (fun i g t => cell3 dataset g t i ielec)
  let layelec := grid3 (nlevel - 1) ng nt
      (fun i g t => 0.5 * (getD3 lelec (i + 1) g t + getD3 lelec i g t))
  let lmix := grid4 nlevel ih3.length ng nt
      (fun i j g t => cell3 dataset g t i (ih3.getD j 0))
  let laymix := grid4 (nlevel - 1) ih3.length ng nt
      (fun i j g t => 0.5 * (getD4 lmix (i + 1) j g t + getD4 lmix i j g t))
  pure { dimension := "3d",
         molecules := molecules,
         weights := weights,
         iheader := ih3,
         level_temperature := ltemp,
         layer_temperature := laytemp,
         level_pressure := lpress,
         layer_pressure := laypress,
         level_electrons := lelec,
         layer_electrons := layelec,
         level_mixingratios := lmix,
         layer_mixingratios := laymix,
         c_nlevel := (nlevel : ℤ),
         c_nlayer := (nlevel : ℤ) - 1 }

/-! ### Cloud loader: `ATMSETUP.get_clouds` (lines 402-542) -/

/-- What the 1-D cloud-file reader sees of a `.cld` file: row count and
column names (the numeric payload feeds the reshape/regrid pipeline, which
is not the subject of any claim about this function's branch and error
behaviour). -/
structure Cloud1DFile where
  nrows : ℕ
  cols : List String

/-- What the 3-D cloud reader sees of the hdf5 database: the comma-split
header attribute and the per-facet row counts (gangle-keyed then
tangle-keyed). -/
structure Cloud3DFile where
  header : List String
  facetRows : List (List ℕ)

/-- Which of the four supported cases of `get_clouds` ran to completion. -/
inductive CloudRes where
  | fromFile1d
  | zeros1d (opd g0 w0 : List (List ℝ))
  | flat1d (w0tot g0tot : List (List ℝ))
  | threeD
deriving Inhabited

/-- An `nlayer × npts` zero matrix (`np.zeros((self.c.nlayer,
self.c.output_npts_wave))`). -/
def zerosMat (n m : ℕ) : List (List ℝ) :=
  List.replicate n (List.replicate m 0)

/-- Opening `h5py.File(None)` raises `TypeError` inside h5py before any picaso code
runs (line 499 with a `None` filepath). -/
def typeError_h5py_none : String :=
  "TypeError: expected str, bytes or os.PathLike object, not NoneType"

/-- Shallow embedding of the branch and error structure of
`ATMSETUP.get_clouds` (lines 443-541).  `pathExists` models
`os.path.exists`; `file1d` and `db3` model reading the 1-D `.cld` table and
opening the hdf5 database; `scat_w0`/`scat_g0` are the flat-scattering
config values (`some` when not `None`); `npts_in`/`npts_out` are
`self.c.input_npts_wave`/`self.c.output_npts_wave` and `nlayer` is
`self.c.nlayer`.  The asserts are translated in source order; the
reshape/regrid payload of the file cases is summarised by the `CloudRes`
tag. -/
def get_clouds (dim : String) (filepath : Option String)
    (pathExists : String → Bool) (file1d : String → Cloud1DFile)
    (db3 : String → Cloud3DFile) (scat_w0 scat_g0 : Option ℝ)
    (nlayer npts_in npts_out : ℕ) : Except String CloudRes :=
  if filepath.isSome ∧ dim = "1d" then
    match filepath with
    | none => Except.error "unreachable: guarded by filepath.isSome"
    | some p =>
      if pathExists p then
        let f := file1d p
        if f.nrows ≠ nlayer * npts_in then
          Except.error "AssertionError: Cloud input file is not on the same grid as the input PT profile:"
        else if "g0" ∉ f.cols then
          Except.error "AssertionError: Please make sure g0 is a named column in cld file"
        else if "w0" ∉ f.cols then
          Except.error "AssertionError: Please make sure w0 is a named column in cld file"
        else if "opd" ∉ f.cols then
          Except.error "AssertionError: Please make sure opd is a named column in cld file"
        else Except.ok CloudRes.fromFile1d
      else
        Except.error "Cld file specified does not exist. Replace with None or find real file"
  else if filepath.isNone ∧ scat_g0.isNone ∧ dim = "1d" then
    Except.ok (CloudRes.zeros1d (zerosMat nlayer npts_out) (zerosMat nlayer npts_out)
      (zerosMat nlayer npts_out))
  else if filepath.isNone ∧ scat_g0.isSome ∧ dim = "1d" then
    Except.ok (CloudRes.flat1d
      ((zerosMat nlayer npts_out).map (fun r => r.map (fun z => z + (scat_w0.getD 0))))
      ((zerosMat nlayer npts_out).map (fun r => r.map (fun z => z + (scat_g0.getD 0)))))
  else if dim = "3d" then
    match filepath with
    | none => Except.error typeError_h5py_none
    | some p =>
      let f := db3 p
      if "g0" ∉ f.header then
        Except.error "AssertionError: Please make sure g0 is a named column in hdf5 cld file"
      else if "w0" ∉ f.header then
        Except.error "AssertionError: Please make sure w0 is a named column in hdf5 cld file"
      else if "opd" ∉ f.header then
        Except.error "AssertionError: Please make sure opd is a named column in hdf5 cld file"
      else if f.facetRows.all (fun row => row.all (fun r => r == nlayer * npts_in)) then
        Except.ok CloudRes.threeD
      else
        Except.error "AssertionError: Cloud input file is not on the same grid as the input PT/Angles profile:"
  else
    Except.error "CLD input not recognized. Either input a filepath, or input None"

/-! ### Column disaggregator: `ATMSETUP.disect` (lines 603-629) -/

/-- A numpy array of some rank holding the atmosphere state fields; values
are modelled as rationals so that concrete disaggregation runs are
decidable (no arithmetic is performed by `disect`). -/
inductive Arr where
  | a1 (v : List ℚ)
  | a2 (v : List (List ℚ))
  | a3 (v : List (List (List ℚ)))
  | a4 (v : List (List (List (List ℚ))))
deriving DecidableEq, Inhabited

/-- Rank (`ndim`) of the array. -/
def Arr.ndim : Arr → ℕ
  | .a1 _ => 1
  | .a2 _ => 2
  | .a3 _ => 3
  | .a4 _ => 4

/-- An `Option`-valued `mapM` written by structural recursion so proofs can
unfold it. -/
def listMapMO {α β : Type} (f : α → Option β) : List α → Option (List β)
  | [] => some []
  | a :: l => (f a).bind (fun b => (listMapMO f l).map (fun bs => b :: bs))

/-- The slice `x[:, g, t]` on a 3-D array: `none` models `IndexError` for an
out-of-range `g`/`t`. -/
def slice3 (m : List (List (List ℚ))) (g t : ℕ) : Option (List ℚ) :=
  listMapMO (fun plane => (plane.get? g).bind (fun row => row.get? t)) m

/-- The slice `x[:, :, g, t]` on a 4-D array. -/
def slice4 (m : List (List (List (List ℚ)))) (g t : ℕ) :
    Option (List (List ℚ)) :=
  listMapMO (fun mat => listMapMO (fun plane =>
    (plane.get? g).bind (fun row => row.get? t)) mat) m

/-- The slice `arr[:, g, t]` as used by `disect` on its 3-D fields; applying it to an
array of any other rank is an `IndexError` (modelled `none`). -/
def proj3 : Arr → ℕ → ℕ → Option Arr
  | .a3 m, g, t => (slice3 m g t).map .a1
  | _, _, _ => none

/-- The slice `arr[:, :, g, t]` as used by `disect` on its 4-D fields. -/
def proj4 : Arr → ℕ → ℕ → Option Arr
  | .a4 m, g, t => (slice4 m g t).map .a2
  | _, _, _ => none

/-- The angular-dependent state of a fully derived 3-D atmosphere: the
level/layer dict entries written by the 3-D pipeline (profile loader,
`get_mmw`, `get_density`, `get_column_density`, `get_clouds`). -/
structure Atm where
  level_temperature : Arr
  level_pressure : Arr
  level_mixingratios : Arr
  level_electrons : Arr
  level_mmw : Arr
  level_den : Arr
  layer_temperature : Arr
  layer_pressure : Arr
  layer_mmw : Arr
  layer_mixingratios : Arr
  layer_colden : Arr
  layer_electrons : Arr
  cloud_opd : Arr
  cloud_g0 : Arr
  cloud_w0 : Arr
deriving DecidableEq, Inhabited

/-- Shallow embedding of `ATMSETUP.disect` (lines 603-629): index `(g,t)`
out of exactly the fields assigned there, in source order, leaving every
other field of the instance untouched (in particular `level['mixingratios']`,
`level['electrons']`, `level['mmw']` and `level['den']` are not assigned by
`disect`). -/
def disect (s : Atm) (g t : ℕ) : Option Atm := do
  let lt ← proj3 s.level_temperature g t
  let lp ← proj3 s.level_pressure g t
  let yt ← proj3 s.layer_temperature g t
  let yp ← proj3 s.layer_pressure g t
  let ym ← proj3 s.layer_mmw g t
  let ymix ← proj4 s.layer_mixingratios g t
  let yc ← proj3 s.layer_colden g t
  let ye ← proj3 s.layer_electrons g t
  let co ← proj4 s.cloud_opd g t
  let cg ← proj4 s.cloud_g0 g t
  let cw ← proj4 s.cloud_w0 g t
  pure { s with level_temperature := lt, level_pressure := lp,
                layer_temperature := yt, layer_pressure := yp,
                layer_mmw := ym, layer_mixingratios := ymix,
                layer_colden := yc, layer_electrons := ye,
                cloud_opd := co, cloud_g0 := cg, cloud_w0 := cw }

/-! ### Shape predicates and concrete instances used by closed theorems -/

/-- Predicate: `x` has shape `[a, b, c]`. -/
def Dims3 (x : List (List (List ℝ))) (a b c : ℕ) : Prop :=
  x.length = a ∧ ∀ p ∈ x, p.length = b ∧ ∀ r ∈ p, r.length = c

/-- Predicate: `x` has shape `[a, b, c, d]`. -/
def Dims4 (x : List (List (List (List ℝ)))) (a b c d : ℕ) : Prop :=
  x.length = a ∧ ∀ m ∈ x, m.length = b ∧ ∀ p ∈ m, p.length = c ∧ ∀ r ∈ p, r.length = d

/-- A tiny 1-D profile table: two levels, one molecule column. -/
noncomputable def table0 : Table :=
  [("temperature", [300, 200]), ("pressure", [1, 4]), ("H2O", [6/10, 4/10])]

/-- The state produced by a successful `get_profile` run on `table0`. -/
noncomputable def out0 : ProfileOut :=
  ((get_profile eleStd Real.sqrt table0 none none none none none).toOption).get!

/-- A 3-D header whose special columns happen to be ordered
pressure < temperature < e-, the only ordering on which the `pop` chain of
`get_profile_3d` removes the intended three columns. -/
def header3 : List String := ["pressure", "temperature", "e-", "H2O"]

/-- One facet (1 gangle × 1 tangle), two levels, columns matching
`header3`. -/
noncomputable def ds3 : List (List (List (List ℝ))) :=
  [[[[1, 300, 1/10, 9/10], [4, 200, 2/10, 8/10]]]]

/-- The state produced by a successful `get_profile_3d` run on `ds3`. -/
noncomputable def out3c : Profile3Out :=
  ((get_profile_3d eleStd Real.sqrt header3 ds3 1 1).toOption).get!

/-- A fully derived 3-D atmosphere state with 2 levels, 1 gangle, 1 tangle,
1 molecule and 2 output wavelength points. -/
def atm0 : Atm :=
  { level_temperature := Arr.a3 [[[5]], [[7]]],
    level_pressure := Arr.a3 [[[1]], [[4]]],
    level_mixingratios := Arr.a4 [[[[3]]], [[[2]]]],
    level_electrons := Arr.a3 [[[1]], [[2]]],
    level_mmw := Arr.a3 [[[2]], [[3]]],
    level_den := Arr.a3 [[[1]], [[1]]],
    layer_temperature := Arr.a3 [[[6]]],
    layer_pressure := Arr.a3 [[[2]]],
    layer_mmw := Arr.a3 [[[5]]],
    layer_mixingratios := Arr.a4 [[[[5]]]],
    layer_colden := Arr.a3 [[[9]]],
    layer_electrons := Arr.a3 [[[3]]],
    cloud_opd := Arr.a4 [[[[0]], [[0]]]],
    cloud_g0 := Arr.a4 [[[[0]], [[0]]]],
    cloud_w0 := Arr.a4 [[[[0]], [[0]]]] }

/-- The state produced by disaggregating `atm0` at facet `(0, 0)`. -/
def atm0res : Atm := (disect atm0 0 0).get!

/-! ## Helper lemmas -/

theorem zipAdj_getD {α β : Type} (f : α → α → β) (d : α) (e : β) :
    ∀ (l : List α) (i : ℕ), i + 1 < l.length →
      (List.zipWith f l.tail l).getD i e = f (l.getD (i + 1) d) (l.getD i d)
  | [], i, h => by simp at h
  | [a], i, h => by simp at h
  | a :: b :: l2, 0, _ => by simp [List.zipWith]
  | a :: b :: l2, i + 1, h => by
    have ih := zipAdj_getD f d e (b :: l2) i (by simpa using h)
    simpa [List.zipWith] using ih

theorem zipDrop_getD {α β : Type} (f : α → α → β) (d : α) (e : β) :
    ∀ (l : List α) (i : ℕ), i + 1 < l.length →
      (List.zipWith f l.dropLast l.tail).getD i e = f (l.getD i d) (l.getD (i + 1) d)
  | [], i, h => by simp at h
  | [a], i, h => by simp at h
  | a :: b :: l2, 0, _ => by simp [List.zipWith]
  | a :: b :: l2, i + 1, h => by
    have ih := zipDrop_getD f d e (b :: l2) i (by simpa using h)
    simpa [List.zipWith] using ih

theorem zipAdj_length {α β : Type} (f : α → α → β) (l : List α) :
    (List.zipWith f l.tail l).length = l.length - 1 := by
  simp [List.length_zipWith]

theorem zipDrop_length {α β : Type} (f : α → α → β) (l : List α) :
    (List.zipWith f l.dropLast l.tail).length = l.length - 1 := by
  simp [List.length_zipWith]

theorem zip_getD {α β γ : Type} (f : α → β → γ) (da : α) (db : β) (e : γ) :
    ∀ (a : List α) (b : List β) (j : ℕ), j < a.length → j < b.length →
      (List.zipWith f a b).getD j e = f (a.getD j da) (b.getD j db)
  | [], _, j, ha, _ => by simp at ha
  | _ :: _, [], j, _, hb => by simp at hb
  | x :: a, y :: b, 0, _, _ => by simp [List.zipWith]
  | x :: a, y :: b, j + 1, ha, hb => by
    have ih := zip_getD f da db e a b j (by simpa using ha) (by simpa using hb)
    simpa [List.zipWith] using ih

theorem getD_range_map {β : Type} (f : ℕ → β) (n i : ℕ) (h : i < n) (d : β) :
    ((List.range n).map f).getD i d = f i := by
  rw [List.getD_eq_getElem ((List.range n).map f) d (by simpa using h)]
  simp

theorem getD3_grid3 (n ng nt : ℕ) (f : ℕ → ℕ → ℕ → ℝ) (i g t : ℕ)
    (hi : i < n) (hg : g < ng) (ht : t < nt) :
    getD3 (grid3 n ng nt f) i g t = f i g t := by
  unfold getD3 grid3
  rw [getD_range_map _ n i hi, getD_range_map _ ng g hg, getD_range_map _ nt t ht]

theorem getD4_grid4 (n m ng nt : ℕ) (f : ℕ → ℕ → ℕ → ℕ → ℝ) (i j g t : ℕ)
    (hi : i < n) (hj : j < m) (hg : g < ng) (ht : t < nt) :
    getD4 (grid4 n m ng nt f) i j g t = f i j g t := by
  unfold getD4 grid4
  rw [getD_range_map _ n i hi, getD_range_map _ m j hj, getD_range_map _ ng g hg,
    getD_range_map _ nt t ht]

theorem dims3_grid3 (n ng nt : ℕ) (f : ℕ → ℕ → ℕ → ℝ) :
    Dims3 (grid3 n ng nt f) n ng nt := by
  refine ⟨by simp [grid3], ?_⟩
  intro p hp
  simp only [grid3, List.mem_map, List.mem_range] at hp
  obtain ⟨i, hi, rfl⟩ := hp
  refine ⟨by simp, ?_⟩
  intro r hr
  simp only [List.mem_map, List.mem_range] at hr
  obtain ⟨g, hg, rfl⟩ := hr
  simp

theorem dims4_grid4 (n m ng nt : ℕ) (f : ℕ → ℕ → ℕ → ℕ → ℝ) :
    Dims4 (grid4 n m ng nt f) n m ng nt := by
  refine ⟨by simp [grid4], ?_⟩
  intro x hx
  simp only [grid4, List.mem_map, List.mem_range] at hx
  obtain ⟨i, hi, rfl⟩ := hx
  refine ⟨by simp, ?_⟩
  intro p hp
  simp only [List.mem_map, List.mem_range] at hp
  obtain ⟨j, hj, rfl⟩ := hp
  refine ⟨by simp, ?_⟩
  intro r hr
  simp only [List.mem_map, List.mem_range] at hr
  obtain ⟨g, hg, rfl⟩ := hr
  simp

theorem exceptBind_ok {ε α β : Type} (e : Except ε α) (f : α → Except ε β) (b : β) :
    (e >>= f) = Except.ok b ↔ ∃ a, e = Except.ok a ∧ f a = Except.ok b := by
  cases e with
  | error err => simp [Bind.bind, Except.bind]
  | ok a => simp [Bind.bind, Except.bind]

theorem listMapMO_get {α β : Type} (f : α → Option β) :
    ∀ (l : List α) (v : List β), listMapMO f l = some v →
      ∀ i, v.get? i = (l.get? i).bind f
  | [], v, h, i => by
    simp only [listMapMO, Option.some.injEq] at h
    subst h; simp
  | a :: l, v, h, i => by
    simp only [listMapMO, Option.bind_eq_some, Option.map_eq_some'] at h
    obtain ⟨b, hb, bs, hbs, rfl⟩ := h
    cases i with
    | zero => simp [hb]
    | succ n => simpa using listMapMO_get f l bs hbs n

theorem scanColumnsGo_elec_inv (ele : String → Option ℚ) (read : Table) :
    ∀ (keys : List String) (acc : ScanAcc),
      acc.layer_electrons = acc.level_electrons.map meanAdj →
      (scanColumnsGo ele read acc keys).layer_electrons =
        (scanColumnsGo ele read acc keys).level_electrons.map meanAdj
  | [], _, hinv => hinv
  | i :: rest, acc, hinv => by
    unfold scanColumnsGo
    split
    · exact scanColumnsGo_elec_inv ele read rest acc hinv
    · split
      · exact scanColumnsGo_elec_inv ele read rest _ hinv
      · split
        · exact scanColumnsGo_elec_inv ele read rest _ (by simp)
        · exact scanColumnsGo_elec_inv ele read rest _ hinv

theorem whichonesGo_elec_inv (ele : String → Option ℚ) (read : Table) :
    ∀ (ws : List String) (acc acc2 : ScanAcc),
      acc.layer_electrons = acc.level_electrons.map meanAdj →
      whichonesGo ele read acc ws = Except.ok acc2 →
      acc2.layer_electrons = acc2.level_electrons.map meanAdj
  | [], acc, acc2, hinv, h => by
    simp only [whichonesGo, Except.ok.injEq] at h
    exact h ▸ hinv
  | i :: rest, acc, acc2, hinv, h => by
    unfold whichonesGo at h
    split at h
    · refine whichonesGo_elec_inv ele read rest _ acc2 ?_ h
      exact hinv
    · split at h
      · split at h
        · refine whichonesGo_elec_inv ele read rest _ acc2 ?_ h
          simp
        · cases h
      · cases h

theorem get_profile_ok_spec (ele : String → Option ℚ) (sqrtF : ℝ → ℝ)
    (read : Table) (whichones : Option (List String)) (T l1 l2 l3 : Option ℝ)
    (out : ProfileOut)
    (h : get_profile ele sqrtF read whichones T l1 l2 l3 = Except.ok out) :
    out.layer_temperature = meanAdj out.level_temperature ∧
    out.layer_pressure = geomAdj sqrtF out.level_pressure ∧
    out.layer_mixingratios = meanAdjRows out.level_mixingratios ∧
    out.layer_electrons = out.level_electrons.map meanAdj ∧
    out.c_nlevel = (out.level_mixingratios.length : ℤ) ∧
    out.c_nlayer = (out.level_mixingratios.length : ℤ) - 1 ∧
    out.level_mixingratios.length = trows read := by
  simp only [get_profile] at h
  cases whichones with
  | none =>
    rw [exceptBind_ok] at h
    obtain ⟨scanRes, hscan, h⟩ := h
    simp only [pure, Except.pure, Except.ok.injEq] at hscan
    subst hscan
    have hinv := scanColumnsGo_elec_inv ele read (read.map Prod.fst)
      ⟨[], [], none, none, []⟩ (by simp)
    rw [exceptBind_ok] at h
    obtain ⟨cols, hcols, h⟩ := h
    split at h
    · simp only [pure, Except.pure, Except.ok.injEq] at h
      subst h
      exact ⟨rfl, rfl, rfl, hinv, rfl, rfl, by simp⟩
    · split at h
      · cases h
      · cases h
  | some ws =>
    rw [exceptBind_ok] at h
    obtain ⟨acc, hacc, h⟩ := h
    rw [exceptBind_ok] at h
    obtain ⟨scanRes, hpure, h⟩ := h
    simp only [pure, Except.pure, Except.ok.injEq] at hpure
    subst hpure
    have hinv := whichonesGo_elec_inv ele read ws ⟨[], [], none, none, []⟩ acc (by simp) hacc
    rw [exceptBind_ok] at h
    obtain ⟨cols, hcols, h⟩ := h
    split at h
    · simp only [pure, Except.pure, Except.ok.injEq] at h
      subst h
      exact ⟨rfl, rfl, rfl, hinv, rfl, rfl, by simp⟩
    · split at h
      · cases h
      · cases h

theorem get_profile_3d_ok_spec (ele : String → Option ℚ) (sqrtF : ℝ → ℝ)
    (header : List String) (dataset : List (List (List (List ℝ)))) (ng nt : ℕ)
    (out3 : Profile3Out)
    (h : get_profile_3d ele sqrtF header dataset ng nt = Except.ok out3) :
    ∃ ft fp fe fm,
      out3.level_temperature = grid3 (nlevel3 dataset) ng nt ft ∧
      out3.layer_temperature = grid3 (nlevel3 dataset - 1) ng nt
        (fun i g t => 0.5 * (getD3 out3.level_temperature (i + 1) g t +
          getD3 out3.level_temperature i g t)) ∧
      out3.level_pressure = grid3 (nlevel3 dataset) ng nt fp ∧
      out3.layer_pressure = grid3 (nlevel3 dataset - 1) ng nt
        (fun i g t => sqrtF (getD3 out3.level_pressure (i + 1) g t *
          getD3 out3.level_pressure i g t)) ∧
      out3.level_electrons = grid3 (nlevel3 dataset) ng nt fe ∧
      out3.layer_electrons = grid3 (nlevel3 dataset - 1) ng nt
        (fun i g t => 0.5 * (getD3 out3.level_electrons (i + 1) g t +
          getD3 out3.level_electrons i g t)) ∧
      out3.level_mixingratios = grid4 (nlevel3 dataset) out3.iheader.length ng nt fm ∧
      out3.layer_mixingratios = grid4 (nlevel3 dataset - 1) out3.iheader.length ng nt
        (fun i j g t => 0.5 * (getD4 out3.level_mixingratios (i + 1) j g t +
          getD4 out3.level_mixingratios i j g t)) ∧
      out3.c_nlevel = (nlevel3 dataset : ℤ) ∧
      out3.c_nlayer = (nlevel3 dataset : ℤ) - 1 := by
  simp only [get_profile_3d] at h
  rw [exceptBind_ok] at h; obtain ⟨itemp, hit, h⟩ := h
  rw [exceptBind_ok] at h; obtain ⟨ipress, hip, h⟩ := h
  cases hie : List.findIdx? (fun s => s == "e-") header with
  | none =>
    rw [hie] at h
    simp [Bind.bind, Except.bind] at h
  | some ielec =>
  rw [hie] at h
  rw [exceptBind_ok] at h; obtain ⟨y, hy, h⟩ := h
  rw [exceptBind_ok] at h; obtain ⟨ih1, hp1, h⟩ := h
  rw [exceptBind_ok] at h; obtain ⟨ih2, hp2, h⟩ := h
  rw [exceptBind_ok] at h; obtain ⟨ih3, hp3, h⟩ := h
  rw [exceptBind_ok] at h; obtain ⟨weights, hws, h⟩ := h
  simp only [pure, Except.pure, Except.ok.injEq] at h
  subst h
  exact ⟨_, _, _, _, rfl, rfl, rfl, rfl, rfl, rfl, rfl, rfl, rfl, rfl⟩

theorem mem_ite_singleton {α : Type} (c : Prop) [Decidable c] (x p : α) :
    (p ∈ (if c then [x] else [])) ↔ (c ∧ p = x) := by
  by_cases hc : c
  · simp [hc]
  · simp [hc]

theorem proj3_ndim (a b : Arr) (g t : ℕ) (h : proj3 a g t = some b) : b.ndim = 1 := by
  cases a <;> simp [proj3] at h
  obtain ⟨v, _, rfl⟩ := h
  rfl

theorem proj4_ndim (a b : Arr) (g t : ℕ) (h : proj4 a g t = some b) : b.ndim = 2 := by
  cases a <;> simp [proj4] at h
  obtain ⟨v, _, rfl⟩ := h
  rfl

theorem grid3_length (n ng nt : ℕ) (f : ℕ → ℕ → ℕ → ℝ) :
    (grid3 n ng nt f).length = n := by simp [grid3]

theorem grid4_length (n m ng nt : ℕ) (f : ℕ → ℕ → ℕ → ℕ → ℝ) :
    (grid4 n m ng nt f).length = n := by simp [grid4]

theorem massLoopGo_allFloat (ele : String → Option ℚ) :
    ∀ (l : List Tok), (∀ x ∈ l, ∃ q, x = Tok.f q) → ∀ acc, massLoopGo ele acc l = some acc
  | [], _, _ => rfl
  | Tok.f q :: rest, h, acc =>
    massLoopGo_allFloat ele rest (fun x hx => h x (List.mem_cons_of_mem _ hx)) acc
  | Tok.s v :: rest, h, acc => by
    obtain ⟨q, hq⟩ := h (Tok.s v) (List.mem_cons_self _ _)
    cases hq

theorem buildTokensGo_noAlpha :
    ∀ (chars : List Char), (∀ c ∈ chars, c.isAlpha = false) →
      ∀ (j : ℕ) (acc : List Tok), (∀ x ∈ acc, ∃ q, x = Tok.f q) →
      ∃ acc2, buildTokensGo j acc chars = some acc2 ∧ ∀ x ∈ acc2, ∃ q, x = Tok.f q
  | [], _, _, acc, hacc => ⟨acc, rfl, hacc⟩
  | c :: rest, hch, j, acc, hacc => by
    have h2 : c.isUpper = false ∧ c.isLower = false := by
      simpa [Char.isAlpha, Bool.or_eq_false_iff] using hch c (List.mem_cons_self _ _)
    have hrest : ∀ d ∈ rest, d.isAlpha = false :=
      fun d hd => hch d (List.mem_cons_of_mem _ hd)
    by_cases hd : c.isDigit
    · have step : tokStep acc j c = some (acc ++ [Tok.f ((c.toNat - 48 : ℕ) : ℚ)]) := by
        simp [tokStep, hd]
      have hacc2 : ∀ x ∈ acc ++ [Tok.f ((c.toNat - 48 : ℕ) : ℚ)], ∃ q, x = Tok.f q := by
        intro x hx
        rcases List.mem_append.mp hx with hx1 | hx2
        · exact hacc x hx1
        · exact ⟨_, by simpa using hx2⟩
      obtain ⟨acc2, hrec, hall⟩ := buildTokensGo_noAlpha rest hrest (j + 1) _ hacc2
      exact ⟨acc2, by simp only [buildTokensGo, step, hrec], hall⟩
    · have step : tokStep acc j c = some acc := by
        simp [tokStep, hd, h2.1, h2.2]
      obtain ⟨acc2, hrec, hall⟩ := buildTokensGo_noAlpha rest hrest (j + 1) acc hacc
      exact ⟨acc2, by simp only [buildTokensGo, step, hrec], hall⟩

/-! ## Claim theorems -/

/-- C1 (code bug): the weight resolver multiplies each element mass by only
the first digit following it in `molecule_list` (`float(molecule_list[j+1])`
at line 341 looks one entry ahead, and the tokenizer appends every digit as
a separate entry), so a multi-digit multiplicity is silently truncated to
its first digit: with mass(H) = 1, mass(C) = 12, the code returns 1 for
"H12" where the claimed sum over tokens gives 12, and 12*1 + 1*2 = 14 for
"C12H26" where the claimed sum gives 12*12 + 1*26 = 170.  Single-digit
formulas follow the claimed sum (e.g. "H2O" ↦ 2*mass(H) + mass(O)). -/
theorem get_weights_multidigit_evaluation :
    get_weights_one eleStd "H12" = some 1 ∧
    get_weights_one eleStd "H12" ≠ some 12 ∧
    get_weights_one eleStd "C12H26" = some (12 * 1 + 1 * 2) ∧
    get_weights_one eleStd "H2O" = some (2 * 1 + 16) := by
  with_unfolding_all decide

/-- C3 (code bug): the 3-D loader does not succeed whenever the header merely
contains `temperature` and `pressure` with `e-` optional.  With no `e-`
column it raises `NameError` at `iheader.pop(ielec)` (line 121), because
`ielec` is assigned only inside `if 'e-' in header`.  And the registry is
not "the header columns other than temperature, pressure, and e-,
regardless of where they appear": popping by index from the mutating
`iheader` list (lines 121-123) removes the wrong entries unless the header
orders pressure before temperature before e-; for the natural header
`temperature,pressure,e-,H2O,CH4` the surviving indices are `[1, 4]`, so
`pressure` lands in the registry and its weight lookup blows up. -/
theorem profile3d_header_registry_failure :
    get_profile_3d eleStd Real.sqrt ["temperature", "pressure", "H2O"] ds3 1 1 =
      Except.error nameError_ielec ∧
    get_profile_3d eleStd Real.sqrt ["temperature", "pressure", "e-", "H2O", "CH4"] ds3 1 1 =
      Except.error "unrecognized molecule: pressure" ∧
    get_profile_3d eleStd Real.sqrt ["pressure", "temperature", "e-", "H2O"] ds3 1 1 =
      Except.ok out3c := by
  refine ⟨by with_unfolding_all rfl, by with_unfolding_all rfl, by with_unfolding_all rfl⟩

/-- C4 (code bug): with no temperature/pressure columns and numeric PT
parameters, `get_profile` reaches `self.profile = calc_TP(...)` (line 249),
but no name `calc_TP` exists anywhere in the module -- the method is
`calc_PT` (line 259) -- so CPython raises an unrelated `NameError` instead
of the clear "not implemented" exception that `calc_PT` would raise. -/
theorem pt_fallback_name_error :
    get_profile eleStd Real.sqrt [("H2O", [5, 5])] none
        (some 1000) (some 1) (some 1) (some 1) = Except.error nameError_calc_TP ∧
    calc_PT 1000 1 1 1 =
      Except.error "TODO: Temperature parameterization option not included yet" ∧
    nameError_calc_TP ≠ "TODO: Temperature parameterization option not included yet" := by
  refine ⟨by with_unfolding_all rfl, rfl, by decide⟩

/-- C6 (code bug): the H+ warning is never appended, for any molecule set:
line 304 tests `'H+' in ['H','H2-','H2','H-','He','N2']`, a membership of
one constant in a constant list that does not contain it, instead of
testing `self.molecules`.  Even with H+ (and electrons) present the
warnings list is returned unchanged, contradicting the claim that the
warning is appended whenever H+ is present. -/
theorem hplus_warning_never_added :
    (∀ (mols : List String) (elec : Bool) (w : List String),
      (get_needed_continuum mols elec w).warnings = w) ∧
    (get_needed_continuum ["H2", "H+"] true ["prior"]).warnings = ["prior"] := by
  constructor
  · intro mols elec w
    simp [get_needed_continuum]
  · decide

/-- C10 (confirmed): a string with no alphabetic character (empty, digits
only, or digits plus dropped punctuation) builds a `molecule_list` of floats
only, so the mass loop never consults the element table and returns exactly
0 without raising; consequently the implicit 1-D column scan classifies such
a column name as a molecule of molar mass 0 (it lands in `weights` and
`molecules`) instead of skipping it with a warning. -/
theorem no_alpha_zero_mass (ele : String → Option ℚ) (s : String) (vs : List ℝ)
    (hs : ∀ c ∈ s.toList, c.isAlpha = false) :
    get_weights_one ele s = some 0 ∧
    scanColumnsGo ele [(s, vs)] ⟨[], [], none, none, []⟩ [s] =
      ⟨[(s, 0)], [s], none, none, []⟩ := by
  obtain ⟨acc2, hb, hall⟩ := buildTokensGo_noAlpha s.toList hs 0 [] (by simp)
  have hw : get_weights_one ele s = some 0 := by
    unfold get_weights_one buildTokens
    rw [hb]
    exact massLoopGo_allFloat ele acc2 hall 0
  have hnp : s ≠ "pressure" := by
    intro hcontra
    subst hcontra
    exact absurd (hs 'p' (by decide)) (by decide)
  have hnt : s ≠ "temperature" := by
    intro hcontra
    subst hcontra
    exact absurd (hs 't' (by decide)) (by decide)
  refine ⟨hw, ?_⟩
  simp [scanColumnsGo, hnp, hnt, hw]

/-- Closed instance of C10 at the digit string "123". -/
theorem no_alpha_zero_mass_instance :
    get_weights_one eleStd "123" = some 0 ∧
    scanColumnsGo eleStd [("123", [1, 2])] ⟨[], [], none, none, []⟩ ["123"] =
      ⟨[("123", 0)], ["123"], none, none, []⟩ :=
  no_alpha_zero_mass eleStd "123" [1, 2] (by decide)

/-- C5 (confirmed): the continuum selector adds exactly the rule-table pairs
(membership in the produced pair list is equivalent to the table's
conditions), the filtered molecule registry retains none of
H, H2-, H2, H-, He, N2, H+, and the two concrete instances of the claim
evaluate as stated. -/
theorem continuum_selector_rules (mols : List String) (elec : Bool) (w : List String) :
    (∀ p : String × String,
      p ∈ (get_needed_continuum mols elec w).continuum_molecules ↔
        (("H2" ∈ mols) ∧ p = ("H2", "H2")) ∨
        (("H2" ∈ mols ∧ "He" ∈ mols) ∧ p = ("H2", "He")) ∨
        (("H2" ∈ mols ∧ "N2" ∈ mols) ∧ p = ("H2", "N2")) ∨
        (("H2" ∈ mols ∧ "H" ∈ mols) ∧ p = ("H2", "H")) ∨
        (("H2" ∈ mols ∧ "CH4" ∈ mols) ∧ p = ("H2", "CH4")) ∨
        (("H-" ∈ mols) ∧ p = ("H-", "bf")) ∨
        (("H" ∈ mols ∧ elec = true) ∧ p = ("H-", "ff")) ∨
        (("H2" ∈ mols ∧ elec = true) ∧ p = ("H2", "H2-"))) ∧
    (∀ x ∈ (get_needed_continuum mols elec w).molecules,
      x ∉ ["H", "H2-", "H2", "H-", "He", "N2", "H+"]) ∧
    (get_needed_continuum ["H2", "He", "H"] true []).continuum_molecules =
      [("H2", "H2"), ("H2", "He"), ("H2", "H"), ("H-", "ff"), ("H2", "H2-")] ∧
    (get_needed_continuum ["H2O"] false []).continuum_molecules = [] := by
  refine ⟨?_, ?_, by decide, by decide⟩
  · intro p
    simp only [get_needed_continuum, List.mem_append, mem_ite_singleton, or_assoc]
  · intro x hx
    simp only [get_needed_continuum, List.mem_filter, decide_eq_true_eq] at hx
    exact hx.2

/-- Closed instance of C5 at the claim's two example molecule sets. -/
theorem continuum_selector_instance :
    (get_needed_continuum ["H2", "He", "H"] true []).continuum_molecules =
      [("H2", "H2"), ("H2", "He"), ("H2", "H"), ("H-", "ff"), ("H2", "H2-")] ∧
    (get_needed_continuum ["H2O"] false []).continuum_molecules = [] :=
  ⟨(continuum_selector_rules ["H2", "He", "H"] true []).2.2.1,
   (continuum_selector_rules ["H2O"] false []).2.2.2⟩

/-- C8 counterexample: in 3-D mode with no cloud filepath, `get_clouds` does
not fail with the "cloud input not recognized" error; the
`elif self.dimension=='3d'` branch (line 498) captures all 3-D inputs and
`h5py.File(None)` raises a `TypeError` inside h5py instead. -/
theorem cloud_unrecognized_counterexample :
    get_clouds "3d" none (fun _ => true) (fun _ => { nrows := 6, cols := ["g0", "w0", "opd"] })
        (fun _ => { header := ["g0", "w0", "opd"], facetRows := [[6]] }) none none 2 3 4 =
      Except.error typeError_h5py_none ∧
    typeError_h5py_none ≠
      "CLD input not recognized. Either input a filepath, or input None" :=
  ⟨rfl, by decide⟩

/-- C8 (corrected): every combination with a dimensionality other than "1d"
and "3d" is fatal with the "cloud input not recognized" error, but 3-D mode
always enters the 3-D branch regardless of filepath presence, so 3-D with
no cloud filepath fails fatally with the h5py `TypeError` from opening
`None`, not with the recognized-input error. -/
theorem cloud_branch_amended (dim : String) (filepath : Option String)
    (pathExists : String → Bool) (file1d : String → Cloud1DFile)
    (db3 : String → Cloud3DFile) (sw sg : Option ℝ) (nl ni no : ℕ) :
    (dim ≠ "1d" → dim ≠ "3d" →
      get_clouds dim filepath pathExists file1d db3 sw sg nl ni no =
        Except.error "CLD input not recognized. Either input a filepath, or input None") ∧
    (dim = "3d" → filepath = none →
      get_clouds dim filepath pathExists file1d db3 sw sg nl ni no =
        Except.error typeError_h5py_none) := by
  constructor
  · intro h1 h3
    simp [get_clouds, h1, h3]
  · intro h3 hf
    subst h3
    subst hf
    simp [get_clouds]

/-- Closed instance of the amended C8: an unrecognized dimensionality string
falls through to the recognized-input error. -/
theorem cloud_branch_instance :
    get_clouds "2d" none (fun _ => true) (fun _ => { nrows := 6, cols := ["g0", "w0", "opd"] })
        (fun _ => { header := ["g0", "w0", "opd"], facetRows := [[6]] }) none none 2 3 4 =
      Except.error "CLD input not recognized. Either input a filepath, or input None" :=
  (cloud_branch_amended "2d" none (fun _ => true)
      (fun _ => { nrows := 6, cols := ["g0", "w0", "opd"] })
      (fun _ => { header := ["g0", "w0", "opd"], facetRows := [[6]] }) none none 2 3 4).1
    (by decide) (by decide)

theorem optionBind_some {α β : Type} (e : Option α) (f : α → Option β) (b : β) :
    (e >>= f) = some b ↔ ∃ a, e = some a ∧ f a = some b := by
  cases e <;> simp

/-- C7 counterexample: after disaggregation at `(0, 0)` of a fully derived
3-D state, the level mixing-ratio array is returned untouched with its full
4-D shape (and likewise level electrons/mmw/density stay 3-D), so it is not
the case that every angular-dependent level array is projected to 1-D and
no field retains a 3-D shape. -/
theorem disect_projection_counterexample :
    (disect atm0 0 0).map (fun s => s.level_mixingratios) =
      some (Arr.a4 [[[[3]]], [[[2]]]]) ∧
    (disect atm0 0 0).map (fun s => s.level_mixingratios.ndim) = some 4 ∧
    (disect atm0 0 0).map (fun s => s.level_mmw.ndim) = some 3 := by
  decide

/-- C7 (corrected): `disect` projects, by indexing out `(g,t)`, exactly the
fields assigned on lines 617-629 -- level temperature and pressure, the six
layer arrays and the three cloud arrays -- and the projected 1-D level
temperature equals the 3-D level temperature sliced at `[:, g, t]`,
elementwise; but the level mixing ratios, electrons, mean molecular weight
and density are left untouched and retain their angular (3-D/4-D) shapes. -/
theorem disect_projection_amended (s s2 : Atm) (g t : ℕ)
    (m : List (List (List ℚ)))
    (hd : disect s g t = some s2)
    (hm : s.level_temperature = Arr.a3 m) :
    (∃ v, slice3 m g t = some v ∧ s2.level_temperature = Arr.a1 v ∧
      ∀ i, v.get? i = (m.get? i).bind
        (fun plane => (plane.get? g).bind (fun row => row.get? t))) ∧
    s2.level_mixingratios = s.level_mixingratios ∧
    s2.level_electrons = s.level_electrons ∧
    s2.level_mmw = s.level_mmw ∧
    s2.level_den = s.level_den ∧
    s2.level_temperature.ndim = 1 ∧ s2.level_pressure.ndim = 1 ∧
    s2.layer_temperature.ndim = 1 ∧ s2.layer_pressure.ndim = 1 ∧
    s2.layer_mmw.ndim = 1 ∧ s2.layer_mixingratios.ndim = 2 ∧
    s2.layer_colden.ndim = 1 ∧ s2.layer_electrons.ndim = 1 ∧
    s2.cloud_opd.ndim = 2 ∧ s2.cloud_g0.ndim = 2 ∧ s2.cloud_w0.ndim = 2 := by
  simp only [disect, optionBind_some, Option.pure_def, Option.some.injEq] at hd
  obtain ⟨lt, hlt, lp, hlp, yt, hyt, yp, hyp, ym, hym, ymix, hymix, yc, hyc,
    ye, hye, co, hco, cg, hcg, cw, hcw, hs2⟩ := hd
  subst hs2
  rw [hm] at hlt
  simp only [proj3, Option.map_eq_some'] at hlt
  obtain ⟨v, hv, hlt2⟩ := hlt
  refine ⟨⟨v, hv, hlt2.symm, listMapMO_get _ m v hv⟩, rfl, rfl, rfl, rfl,
    ?_, ?_, ?_, ?_, ?_, ?_, ?_, ?_, ?_, ?_, ?_⟩
  · rw [hlt2.symm]
    rfl
  · exact proj3_ndim _ _ _ _ hlp
  · exact proj3_ndim _ _ _ _ hyt
  · exact proj3_ndim _ _ _ _ hyp
  · exact proj3_ndim _ _ _ _ hym
  · exact proj4_ndim _ _ _ _ hymix
  · exact proj3_ndim _ _ _ _ hyc
  · exact proj3_ndim _ _ _ _ hye
  · exact proj4_ndim _ _ _ _ hco
  · exact proj4_ndim _ _ _ _ hcg
  · exact proj4_ndim _ _ _ _ hcw

/-- Closed instance of the amended C7 at `atm0` and facet `(0, 0)`: the
projected level temperature is the `[:, 0, 0]` slice, and the level mixing
ratios are untouched. -/
theorem disect_projection_instance :
    atm0res.level_temperature = Arr.a1 [5, 7] ∧
    atm0res.level_mixingratios = Arr.a4 [[[[3]]], [[[2]]]] := by
  have hd : disect atm0 0 0 = some atm0res := by decide
  have happ := disect_projection_amended atm0 atm0res 0 0 [[[5]], [[7]]] hd rfl
  obtain ⟨⟨v, hv, hlt, _⟩, hmix, _⟩ := happ
  have hv2 : v = [5, 7] := by
    have h2 : slice3 [[[5]], [[7]]] 0 0 = some [5, 7] := by decide
    exact Option.some.inj (hv.symm.trans h2)
  exact ⟨hv2 ▸ hlt, hmix.trans rfl⟩

/-- C2 (confirmed): in the 1-D loader, every derived layer array has length
one less than its level array, with `layer[i] = 0.5*(level[i]+level[i+1])`
for temperature, electrons and each mixing-ratio column, and
`layer[i] = sqrt(level[i]*level[i+1])` for pressure; the same arithmetic
mean rule governs the mean-molecular-weight derivation; and in the 3-D
loader the same rules hold elementwise per facet `(g, t)`. -/
theorem profile_layer_derivation_rules :
    (∀ (ele : String → Option ℚ) (read : Table) (whichones : Option (List String))
       (T l1 l2 l3 : Option ℝ) (out : ProfileOut),
      get_profile ele Real.sqrt read whichones T l1 l2 l3 = Except.ok out →
      (out.layer_temperature.length = out.level_temperature.length - 1 ∧
       ∀ i, i + 1 < out.level_temperature.length →
         out.layer_temperature.getD i 0 =
           0.5 * (out.level_temperature.getD i 0 + out.level_temperature.getD (i + 1) 0)) ∧
      (out.layer_pressure.length = out.level_pressure.length - 1 ∧
       ∀ i, i + 1 < out.level_pressure.length →
         out.layer_pressure.getD i 0 =
           Real.sqrt (out.level_pressure.getD i 0 * out.level_pressure.getD (i + 1) 0)) ∧
      (∀ le ye, out.level_electrons = some le → out.layer_electrons = some ye →
        ye.length = le.length - 1 ∧
        ∀ i, i + 1 < le.length → ye.getD i 0 = 0.5 * (le.getD i 0 + le.getD (i + 1) 0)) ∧
      (out.layer_mixingratios.length = out.level_mixingratios.length - 1 ∧
       ∀ i j, i + 1 < out.level_mixingratios.length →
         j < (out.level_mixingratios.getD i []).length →
         j < (out.level_mixingratios.getD (i + 1) []).length →
         (out.layer_mixingratios.getD i []).getD j 0 =
           0.5 * ((out.level_mixingratios.getD i []).getD j 0 +
             (out.level_mixingratios.getD (i + 1) []).getD j 0))) ∧
    (∀ (mix : List (List ℝ)) (w : List (String × ℚ)),
      (get_mmw_layer (get_mmw_level mix w)).length = (get_mmw_level mix w).length - 1 ∧
      ∀ i, i + 1 < (get_mmw_level mix w).length →
        (get_mmw_layer (get_mmw_level mix w)).getD i 0 =
          0.5 * ((get_mmw_level mix w).getD i 0 + (get_mmw_level mix w).getD (i + 1) 0)) ∧
    (∀ (ele : String → Option ℚ) (header : List String)
       (dataset : List (List (List (List ℝ)))) (ng nt : ℕ) (out3 : Profile3Out),
      get_profile_3d ele Real.sqrt header dataset ng nt = Except.ok out3 →
      ∀ g t, g < ng → t < nt →
        (out3.layer_temperature.length = out3.level_temperature.length - 1 ∧
         ∀ i, i + 1 < out3.level_temperature.length →
           getD3 out3.layer_temperature i g t =
             0.5 * (getD3 out3.level_temperature i g t +
               getD3 out3.level_temperature (i + 1) g t)) ∧
        (∀ i, i + 1 < out3.level_pressure.length →
           getD3 out3.layer_pressure i g t =
             Real.sqrt (getD3 out3.level_pressure i g t *
               getD3 out3.level_pressure (i + 1) g t)) ∧
        (∀ i, i + 1 < out3.level_electrons.length →
           getD3 out3.layer_electrons i g t =
             0.5 * (getD3 out3.level_electrons i g t +
               getD3 out3.level_electrons (i + 1) g t)) ∧
        (∀ i j, i + 1 < out3.level_mixingratios.length → j < out3.iheader.length →
           getD4 out3.layer_mixingratios i j g t =
             0.5 * (getD4 out3.level_mixingratios i j g t +
               getD4 out3.level_mixingratios (i + 1) j g t))) := by
  refine ⟨?_, ?_, ?_⟩
  · intro ele read whichones T l1 l2 l3 out h
    obtain ⟨hT, hP, hM, hE, _, _, _⟩ :=
      get_profile_ok_spec ele Real.sqrt read whichones T l1 l2 l3 out h
    refine ⟨⟨?_, ?_⟩, ⟨?_, ?_⟩, ?_, ⟨?_, ?_⟩⟩
    · rw [hT]; exact zipAdj_length _ _
    · intro i hi
      rw [hT]
      unfold meanAdj
      rw [zipAdj_getD (fun a b => 0.5 * (a + b)) (0 : ℝ) (0 : ℝ) _ i hi]
      ring
    · rw [hP]; exact zipAdj_length _ _
    · intro i hi
      rw [hP]
      unfold geomAdj
      rw [zipAdj_getD (fun a b => Real.sqrt (a * b)) (0 : ℝ) (0 : ℝ) _ i hi, mul_comm]
    · intro le ye hle hye
      rw [hle] at hE
      simp only [Option.map_some'] at hE
      rw [hye] at hE
      have hyel : ye = meanAdj le := Option.some.inj hE
      subst hyel
      constructor
      · exact zipAdj_length _ _
      · intro i hi
        unfold meanAdj
        rw [zipAdj_getD (fun a b => 0.5 * (a + b)) (0 : ℝ) (0 : ℝ) _ i hi]
        ring
    · rw [hM]; exact zipAdj_length _ _
    · intro i j hi hj1 hj2
      rw [hM]
      unfold meanAdjRows
      rw [zipAdj_getD (fun r2 r1 => List.zipWith (fun a b => 0.5 * (a + b)) r2 r1)
        ([] : List ℝ) ([] : List ℝ) _ i hi]
      rw [zip_getD (fun a b => 0.5 * (a + b)) (0 : ℝ) (0 : ℝ) (0 : ℝ) _ _ j hj2 hj1]
      ring
  · intro mix w
    constructor
    · unfold get_mmw_layer meanAdjDrop
      exact zipDrop_length _ _
    · intro i hi
      unfold get_mmw_layer meanAdjDrop
      rw [zipDrop_getD (fun a b => 0.5 * (a + b)) (0 : ℝ) (0 : ℝ) _ i hi]
  · intro ele header dataset ng nt out3 h g t hg htn
    obtain ⟨ft, fp, fe, fm, hLT, hYT, hLP, hYP, hLE, hYE, hLM, hYM, _, _⟩ :=
      get_profile_3d_ok_spec ele Real.sqrt header dataset ng nt out3 h
    refine ⟨⟨?_, ?_⟩, ?_, ?_, ?_⟩
    · rw [hYT, hLT, grid3_length, grid3_length]
    · intro i hi
      have hi2 : i + 1 < nlevel3 dataset := by rwa [hLT, grid3_length] at hi
      rw [hYT, getD3_grid3 _ _ _ _ i g t (by omega) hg htn]
      ring
    · intro i hi
      have hi2 : i + 1 < nlevel3 dataset := by rwa [hLP, grid3_length] at hi
      rw [hYP, getD3_grid3 _ _ _ _ i g t (by omega) hg htn, mul_comm]
    · intro i hi
      have hi2 : i + 1 < nlevel3 dataset := by rwa [hLE, grid3_length] at hi
      rw [hYE, getD3_grid3 _ _ _ _ i g t (by omega) hg htn]
      ring
    · intro i j hi hj
      have hi2 : i + 1 < nlevel3 dataset := by rwa [hLM, grid4_length] at hi
      rw [hYM, getD4_grid4 _ _ _ _ _ i j g t (by omega) hj hg htn]
      ring

/-- Closed instance of C2 at `table0` (1-D path) and `ds3` (3-D path). -/
theorem profile_layer_rules_instance :
    out0.layer_temperature.getD 0 0 =
      0.5 * (out0.level_temperature.getD 0 0 + out0.level_temperature.getD 1 0) ∧
    out0.layer_pressure.getD 0 0 =
      Real.sqrt (out0.level_pressure.getD 0 0 * out0.level_pressure.getD 1 0) ∧
    getD3 out3c.layer_temperature 0 0 0 =
      0.5 * (getD3 out3c.level_temperature 0 0 0 + getD3 out3c.level_temperature 1 0 0) := by
  have hout : get_profile eleStd Real.sqrt table0 none none none none none =
      Except.ok out0 := by
    with_unfolding_all rfl
  have hout3 : get_profile_3d eleStd Real.sqrt header3 ds3 1 1 = Except.ok out3c := by
    with_unfolding_all rfl
  have h1 := profile_layer_derivation_rules.1 eleStd table0 none none none none none out0 hout
  have h3 := profile_layer_derivation_rules.2.2 eleStd header3 ds3 1 1 out3c hout3 0 0
    (by decide) (by decide)
  refine ⟨h1.1.2 0 ?_, h1.2.1.2 0 ?_, h3.1.2 0 ?_⟩
  · with_unfolding_all decide
  · with_unfolding_all decide
  · with_unfolding_all decide

/-- C9 (confirmed): after profile loading, in both the 1-D and the 3-D path,
the constants bundle satisfies nlevel = nlayer + 1 (as the stored Python
integers), every layer array's leading dimension is exactly one less than
the corresponding level array's (stated for the nonempty level arrays any
real profile produces), and in the 3-D path level and layer arrays carry
the matching angular dimensions ng × nt throughout. -/
theorem nlevel_nlayer_shapes :
    (∀ (ele : String → Option ℚ) (sqrtF : ℝ → ℝ) (read : Table)
       (whichones : Option (List String)) (T l1 l2 l3 : Option ℝ) (out : ProfileOut),
      get_profile ele sqrtF read whichones T l1 l2 l3 = Except.ok out →
      out.c_nlevel = out.c_nlayer + 1 ∧
      (0 < out.level_temperature.length →
        out.layer_temperature.length + 1 = out.level_temperature.length) ∧
      (0 < out.level_pressure.length →
        out.layer_pressure.length + 1 = out.level_pressure.length) ∧
      (∀ le ye, out.level_electrons = some le → out.layer_electrons = some ye →
        0 < le.length → ye.length + 1 = le.length) ∧
      (0 < out.level_mixingratios.length →
        out.layer_mixingratios.length + 1 = out.level_mixingratios.length)) ∧
    (∀ (ele : String → Option ℚ) (sqrtF : ℝ → ℝ) (header : List String)
       (dataset : List (List (List (List ℝ)))) (ng nt : ℕ) (out3 : Profile3Out),
      get_profile_3d ele sqrtF header dataset ng nt = Except.ok out3 →
      out3.c_nlevel = out3.c_nlayer + 1 ∧
      (0 < nlevel3 dataset →
        out3.layer_temperature.length + 1 = out3.level_temperature.length ∧
        out3.layer_pressure.length + 1 = out3.level_pressure.length ∧
        out3.layer_electrons.length + 1 = out3.level_electrons.length ∧
        out3.layer_mixingratios.length + 1 = out3.level_mixingratios.length) ∧
      Dims3 out3.level_temperature (nlevel3 dataset) ng nt ∧
      Dims3 out3.layer_temperature (nlevel3 dataset - 1) ng nt ∧
      Dims3 out3.level_pressure (nlevel3 dataset) ng nt ∧
      Dims3 out3.layer_pressure (nlevel3 dataset - 1) ng nt ∧
      Dims3 out3.level_electrons (nlevel3 dataset) ng nt ∧
      Dims3 out3.layer_electrons (nlevel3 dataset - 1) ng nt ∧
      Dims4 out3.level_mixingratios (nlevel3 dataset) out3.iheader.length ng nt ∧
      Dims4 out3.layer_mixingratios (nlevel3 dataset - 1) out3.iheader.length ng nt) := by
  constructor
  · intro ele sqrtF read whichones T l1 l2 l3 out h
    obtain ⟨hT, hP, hM, hE, hc1, hc2, _⟩ :=
      get_profile_ok_spec ele sqrtF read whichones T l1 l2 l3 out h
    refine ⟨by rw [hc1, hc2]; ring, ?_, ?_, ?_, ?_⟩
    · intro hpos
      have := zipAdj_length (fun a b => 0.5 * (a + b)) out.level_temperature
      rw [hT]
      unfold meanAdj
      omega
    · intro hpos
      have := zipAdj_length (fun a b => sqrtF (a * b)) out.level_pressure
      rw [hP]
      unfold geomAdj
      omega
    · intro le ye hle hye hpos
      rw [hle] at hE
      simp only [Option.map_some'] at hE
      rw [hye] at hE
      have hyel : ye = meanAdj le := Option.some.inj hE
      subst hyel
      have := zipAdj_length (fun a b => 0.5 * (a + b)) le
      unfold meanAdj
      omega
    · intro hpos
      have := zipAdj_length
        (fun r2 r1 => List.zipWith (fun a b => 0.5 * (a + b)) r2 r1)
        out.level_mixingratios
      rw [hM]
      unfold meanAdjRows
      omega
  · intro ele sqrtF header dataset ng nt out3 h
    obtain ⟨ft, fp, fe, fm, hLT, hYT, hLP, hYP, hLE, hYE, hLM, hYM, hc1, hc2⟩ :=
      get_profile_3d_ok_spec ele sqrtF header dataset ng nt out3 h
    refine ⟨by rw [hc1, hc2]; ring, ?_, ?_, ?_, ?_, ?_, ?_, ?_, ?_, ?_⟩
    · intro hpos
      rw [hYT, hLT, hYP, hLP, hYE, hLE, hYM, hLM, grid3_length, grid3_length,
        grid3_length, grid3_length, grid3_length, grid3_length, grid4_length,
        grid4_length]
      omega
    · rw [hLT]; exact dims3_grid3 _ _ _ _
    · rw [hYT]; exact dims3_grid3 _ _ _ _
    · rw [hLP]; exact dims3_grid3 _ _ _ _
    · rw [hYP]; exact dims3_grid3 _ _ _ _
    · rw [hLE]; exact dims3_grid3 _ _ _ _
    · rw [hYE]; exact dims3_grid3 _ _ _ _
    · rw [hLM]; exact dims4_grid4 _ _ _ _ _
    · rw [hYM]; exact dims4_grid4 _ _ _ _ _

/-- Closed instance of C9 at `table0` (1-D path) and `ds3` (3-D path). -/
theorem nlevel_nlayer_shapes_instance :
    out0.c_nlevel = out0.c_nlayer + 1 ∧
    out0.layer_temperature.length + 1 = out0.level_temperature.length ∧
    out3c.c_nlevel = out3c.c_nlayer + 1 ∧
    Dims3 out3c.level_temperature (nlevel3 ds3) 1 1 := by
  have hout : get_profile eleStd Real.sqrt table0 none none none none none =
      Except.ok out0 := by
    with_unfolding_all rfl
  have hout3 : get_profile_3d eleStd Real.sqrt header3 ds3 1 1 = Except.ok out3c := by
    with_unfolding_all rfl
  have h1 := nlevel_nlayer_shapes.1 eleStd Real.sqrt table0 none none none none none out0 hout
  have h3 := nlevel_nlayer_shapes.2 eleStd Real.sqrt header3 ds3 1 1 out3c hout3
  exact ⟨h1.1, h1.2.1 (by with_unfolding_all decide), h3.1, h3.2.2.1⟩
